import Mathlib

/-!
Verification of the teaching-assistant backend: a shallow embedding of the
quiz generator/evaluator (`src/tools/quiz_generator.py`), the progress store
(`src/database/progress.py`) and the LangGraph teaching workflow
(`src/workflow.py`), together with theorems settling the specification
claims about them.

Modelling conventions:
* Python strings are modelled as `List Char` (`PyStr`), so that every
  string operation is a structural recursion the kernel can evaluate;
  the Python methods `strip`, `split`, `startswith`, `upper`, `replace`
  and the `in` operator are re-implemented faithfully below for the
  ASCII texts this program manipulates.
* Python `float` scores are modelled as `ℚ` (every score in play is an
  exact small rational `correct / total`, and the configured threshold is
  the literal `0.7`).
* The `TeachingState` `TypedDict` is a structure; keys that a node may
  leave unset are `Option` fields, and the Python `state.get(k, d)`
  becomes `Option.getD`.
* A Python function that can raise is modelled as a function into
  `Except PyStr _`.
* External collaborators (the LLM, the vector store retrieval, the quiz
  generator LLM call, the progress database) are modelled as explicit
  `Except`-valued inputs of the node that calls them: `.ok v` is a normal
  return, `.error e` is a raised exception, and the `try/except` block of
  a node becomes a `match` on that value.
-/

namespace TeachingAI

/-- Python strings, modelled as their character sequences. -/
abbrev PyStr := List Char

/-- Coerce a Lean string literal into the model. -/
def pystr (s : String) : PyStr := s.toList

/-- The apostrophe character (used inside some message strings of the
source; written via its code point). -/
def apoc : Char := Char.ofNat 39

/-- Python `str.strip()` whitespace test (the ASCII whitespace characters;
the texts this program strips are ASCII). -/
def pyIsSpace (c : Char) : Bool :=
  c = ' ' || c = '\t' || c = '\n' || c = '\r' || c = '\x0b' || c = '\x0c'

/-- Python `s.strip()`: drop whitespace from both ends. -/
def pystrip (s : PyStr) : PyStr :=
  ((s.dropWhile pyIsSpace).reverse.dropWhile pyIsSpace).reverse

/-- Python `s.split(sep)` for a one-character separator `sep` (the source
splits on `"\n"` and on `":"`). -/
def splitChar (sep : Char) : PyStr → List PyStr
  | [] => [[]]
  | c :: cs =>
      match splitChar sep cs with
      | [] => [[]]
      | h :: t => if c = sep then [] :: h :: t else (c :: h) :: t

/-- Python `line.split(":", 1)[1]`: everything after the first colon
(empty when there is no colon). -/
def afterFirstColon (line : PyStr) : PyStr :=
  List.intercalate (pystr ":") (splitChar ':' line).tail

/-- Python `line.split(":")[1]`: the text between the first and the second
colon (empty when absent). -/
def secondColonField (line : PyStr) : PyStr :=
  ((splitChar ':' line).drop 1).headD []

/-- Python `sub in s` for a non-empty needle `sub`. -/
def occursIn (pat : PyStr) : PyStr → Bool
  | [] => pat = []
  | c :: cs => pat.isPrefixOf (c :: cs) || occursIn pat cs

/-- Fuelled helper for `pyreplace`; the fuel is the length of the scanned
string, which bounds the number of loop steps. -/
def pyreplaceAux (pat repl : PyStr) : Nat → PyStr → PyStr
  | 0, s => s
  | _ + 1, [] => []
  | fuel + 1, c :: cs =>
      if pat ≠ [] ∧ pat.isPrefixOf (c :: cs) then
        repl ++ pyreplaceAux pat repl fuel (List.drop (pat.length - 1) cs)
      else c :: pyreplaceAux pat repl fuel cs

/-- Python `s.replace(pat, repl)`: replace every (non-overlapping,
left-to-right) occurrence of `pat` in `s` by `repl`. -/
def pyreplace (s pat repl : PyStr) : PyStr :=
  pyreplaceAux pat repl s.length s

/-- Python `s.upper()` (ASCII texts). -/
def pyupper (s : PyStr) : PyStr := s.map Char.toUpper

/-- Python `str(n)` for a natural number. -/
def pyNatRepr (n : Nat) : PyStr := (Nat.repr n).toList

/-! ## Quiz data model (`src/tools/quiz_generator.py`) -/

/-- One labelled multiple-choice option, the Python dict
`{"label": line[0], "text": option_text}`. -/
structure QOption where
  label : PyStr
  text : PyStr
deriving Repr, DecidableEq

/-- One parsed quiz question: the Python dict with keys `question`,
`options` and `correct_answer` — which holds `None` when no `Correct:`
line was seen — built by `_parse_quiz_response`.  The constant
`"type": "multiple_choice"` entry is omitted. -/
structure QuizQuestion where
  question : PyStr
  options : List QOption
  correct_answer : Option PyStr
deriving Repr, DecidableEq

/-- The loop state of `_parse_quiz_response`: the accumulated `questions`
list and the in-progress block (`current_question`, `current_options`,
`current_correct`). -/
structure ParseAcc where
  questions : List QuizQuestion
  current_question : Option PyStr
  current_options : List QOption
  current_correct : Option PyStr
deriving Repr, DecidableEq

/-- The append step of `_parse_quiz_response`, Python
`if current_question and current_options: questions.append({...})`.
Truthiness: an empty `current_question` string or an empty options list
suppresses the append; a missing `Correct:` line does not. -/
def flushQuestion (st : ParseAcc) : List QuizQuestion :=
  match st.current_question with
  | none => st.questions
  | some q =>
      if q ≠ [] ∧ st.current_options ≠ [] then
        st.questions ++ [⟨q, st.current_options, st.current_correct⟩]
      else st.questions

/-- Python `line.startswith("Q") and ":" in line`. -/
def isQLine (line : PyStr) : Bool :=
  (pystr "Q").isPrefixOf line && line.contains ':'

/-- Python `line.startswith(("A)", "B)", "C)", "D)"))`. -/
def isOptLine (line : PyStr) : Bool :=
  (pystr "A)").isPrefixOf line || (pystr "B)").isPrefixOf line ||
    (pystr "C)").isPrefixOf line || (pystr "D)").isPrefixOf line

/-- Python `line.startswith("Correct:")`. -/
def isCorrectLine (line : PyStr) : Bool :=
  (pystr "Correct:").isPrefixOf line

/-- One iteration of the `for line in lines` loop of
`_parse_quiz_response`: strip the line, skip it when blank, start a new
block on a question line (appending the previous complete block), collect
option lines, and record the `Correct:` answer. -/
def parseLine (st : ParseAcc) (rawLine : PyStr) : ParseAcc :=
  let line := pystrip rawLine
  if line = [] then st
  else if isQLine line then
    { questions := flushQuestion st
      current_question := some (pystrip (afterFirstColon line))
      current_options := []
      current_correct := none }
  else if isOptLine line then
    { st with current_options :=
        st.current_options ++ [⟨line.take 1, pystrip (line.drop 2)⟩] }
  else if isCorrectLine line then
    { st with current_correct := some (pystrip (secondColonField line)) }
  else st

/-- `QuizGenerator._parse_quiz_response`: split the stripped response text
into lines, run the line loop, then append the last in-progress block. -/
def parse_quiz_response (response_text : PyStr) : List QuizQuestion :=
  let lines := splitChar '\n' (pystrip response_text)
  flushQuestion (lines.foldl parseLine ⟨[], none, [], none⟩)

/-! ## Quiz evaluation (`evaluate_quiz`) -/

/-- `Settings.passing_score` from `src/config.py`: `0.7  # 70% to pass`. -/
def passing_score : ℚ := 7/10

/-- One entry of the `results` breakdown built by `evaluate_quiz`. -/
structure ResultEntry where
  question_number : Nat
  question : PyStr
  user_answer : PyStr
  correct_answer : PyStr
  is_correct : Bool
deriving Repr, DecidableEq

/-- The dictionary returned by `evaluate_quiz`. -/
structure EvalResult where
  total_questions : Nat
  correct_answers : Nat
  score : ℚ
  percentage : ℚ
  passed : Bool
  results : List ResultEntry
deriving Repr, DecidableEq

/-- Grade one `(question, user_answer)` pair at 1-based position `i`:
Python `question["correct_answer"].upper()` raises `AttributeError` when
the stored correct answer is `None`; otherwise the comparison
`user_answer.upper() == correct_answer.upper()` is case-insensitive. -/
def gradeOne (i : Nat) (q : QuizQuestion) (a : PyStr) :
    Except PyStr ResultEntry :=
  match q.correct_answer with
  | none => .error (pystr "AttributeError: NoneType has no attribute upper")
  | some c => .ok ⟨i, q.question, a, c, pyupper a = pyupper c⟩

/-- Grade the zipped, 1-based-enumerated pairs in order, propagating the
first raised exception (the Python `for` loop). -/
def gradeAll : Nat → List (QuizQuestion × PyStr) →
    Except PyStr (List ResultEntry)
  | _, [] => .ok []
  | i, (q, a) :: rest => do
      let r ← gradeOne i q a
      let rs ← gradeAll (i + 1) rest
      pure (r :: rs)

/-- `evaluate_quiz` from `src/tools/quiz_generator.py`: a length mismatch
raises `ValueError` before any grading; otherwise each position is graded
case-insensitively, `score = correct_count / len(questions)` and
`passed = score >= settings.passing_score`. -/
def evaluate_quiz (questions : List QuizQuestion) (user_answers : List PyStr) :
    Except PyStr EvalResult :=
  if questions.length ≠ user_answers.length then
    .error (pystr "Number of answers doesn" ++ [apoc] ++
      pystr "t match number of questions")
  else do
    let results ← gradeAll 1 (questions.zip user_answers)
    let correct_count := results.countP (·.is_correct)
    let score : ℚ := (correct_count : ℚ) / (questions.length : ℚ)
    pure
      { total_questions := questions.length
        correct_answers := correct_count
        score := score
        percentage := score * 100
        passed := decide (score ≥ passing_score)
        results := results }

/-! ## Progress store (`src/database/progress.py`)

The JSON store holds one record per user; `update_progress` reads the
record, mutates it and writes it back, so it is modelled as a pure
transformation of the user record. -/

/-- The per-user progress record created by `get_or_create_user`
(the fields the progress logic touches). -/
structure UserProgress where
  user_id : PyStr
  current_lesson_id : Int
  completed_lessons : List Int
  lesson_scores : List (PyStr × ℚ)
deriving Repr, DecidableEq

/-- Python dict assignment `user["lesson_scores"][str(lesson_id)] = score`
on the association-list model of the JSON dict. -/
def setScore (m : List (PyStr × ℚ)) (k : PyStr) (v : ℚ) : List (PyStr × ℚ) :=
  if m.any (fun p => p.1 = k) then
    m.map (fun p => if p.1 = k then (k, v) else p)
  else m ++ [(k, v)]

/-- Python `str(lesson_id)` for the (non-negative) lesson ids in play. -/
def lessonKey (lesson_id : Int) : PyStr := pyNatRepr lesson_id.toNat

/-- `update_progress` from `src/database/progress.py`: record the score;
if `passed` and the lesson was not already completed, append it to
`completed_lessons` and advance `current_lesson_id` to `lesson_id + 1`;
otherwise set `current_lesson_id` to `lesson_id` itself. -/
def update_progress (user : UserProgress) (lesson_id : Int) (score : ℚ)
    (passed : Bool) : UserProgress :=
  let user := { user with
    lesson_scores := setScore user.lesson_scores (lessonKey lesson_id) score }
  if passed ∧ lesson_id ∉ user.completed_lessons then
    { user with
      completed_lessons := user.completed_lessons ++ [lesson_id]
      current_lesson_id := lesson_id + 1 }
  else
    { user with current_lesson_id := lesson_id }

/-! ## Teaching workflow state (`src/state.py`) -/

/-- One conversation message, the Python dict `{role, content}`. -/
structure Message where
  role : PyStr
  content : PyStr
deriving Repr, DecidableEq

/-- The `TeachingState` `TypedDict` from `src/state.py` (the fields the
graph logic reads or writes; `llm_response` and `source` are carried
opaquely by the real state and never branch the workflow, so they are
omitted).  Fields a node may leave unset are `Option`s. -/
structure TeachingState where
  user_id : PyStr
  current_lesson_id : Int
  lesson_title : PyStr
  messages : List Message
  user_input : PyStr
  retrieved_content : Option PyStr
  teacher_response : Option PyStr
  phase : PyStr
  quiz_questions : Option (List QuizQuestion)
  quiz_answers : Option (List PyStr)
  quiz_score : Option ℚ
  quiz_passed : Option Bool
  next_action : Option PyStr
  is_greeting : Option Bool
  error : Option PyStr
deriving Repr, DecidableEq

/-- The external collaborators one run of the graph may consult, each as
the outcome of the single call the owning node makes: `.ok` is a normal
return and `.error` a raised exception.  `retrieval` returns the chunk
texts; `quizGen` returns the generated question list; `progressStore` is
the value of `get_current_lesson_id` re-read after the `update_progress`
write (or the exception either of the two raised). -/
structure Collaborators where
  greetingLLM : Except PyStr PyStr
  retrieval : Except PyStr (List PyStr)
  responseLLM : Except PyStr PyStr
  quizGen : Except PyStr (List QuizQuestion)
  progressStore : Except PyStr Int
deriving Repr

/-! ## Workflow nodes (`src/workflow.py`) -/

/-- The reserved greeting sentinel. -/
def greetingSentinel : PyStr := pystr "__greeting__"

/-- The hard-coded fallback greeting of `greeting_node`: the f-string
embedding the lesson title between "Hello! Welcome to " and the fixed
encouragement text (whose apostrophe is written via its code point). -/
def fallbackGreeting (lesson_title : PyStr) : PyStr :=
  pystr "Hello! Welcome to " ++ lesson_title ++ pystr ". I" ++ [apoc] ++
    pystr "m excited to help you improve your English skills today. Shall we begin?"

/-- `TeachingGraph.greeting_node`: strip `user_input`; when it is neither
empty nor the sentinel, just set `is_greeting = False`; otherwise set
`is_greeting = True` and produce a greeting — the LLM text on success,
the templated fallback embedding the lesson title on failure. -/
def greeting_node (llm : Except PyStr PyStr) (state : TeachingState) :
    TeachingState :=
  let user_input := pystrip state.user_input
  let is_greeting_request := user_input = [] ∨ user_input = greetingSentinel
  if ¬ is_greeting_request then
    { state with is_greeting := some false }
  else
    match llm with
    | .ok text =>
        { state with is_greeting := some true, teacher_response := some text }
    | .error _ =>
        { state with is_greeting := some true
                     teacher_response := some (fallbackGreeting state.lesson_title) }

/-- `TeachingGraph.retrieve_content_node`: on success, join the retrieved
chunks with positional `[Section i]` labels into `retrieved_content`; on a
raised retrieval exception, record it in `error` and continue with empty
content. -/
def retrieve_content_node (retrieval : Except PyStr (List PyStr))
    (state : TeachingState) : TeachingState :=
  match retrieval with
  | .ok chunks =>
      { state with retrieved_content := some (List.intercalate (pystr "\n\n")
          (chunks.enum.map
            (fun p => pystr "[Section " ++ pyNatRepr (p.1 + 1) ++ pystr "]: " ++ p.2))) }
  | .error e =>
      { state with error := some e, retrieved_content := some [] }

/-- The in-band quiz-readiness marker `[QUIZ_READY]`. -/
def quizMarker : PyStr := pystr "[QUIZ_READY]"

/-- The apology `generate_response_node` substitutes on LLM failure. -/
def apology : PyStr := pystr "I apologize, I encountered an error. Please try again."

/-- `TeachingGraph.generate_response_node`: on LLM success, detect the
`[QUIZ_READY]` marker — when present, strip it from the text and set
`next_action = "quiz"` — store the text as `teacher_response` and append
the user input and the response to `messages`; on LLM failure, record the
exception in `error` and substitute the apology. -/
def generate_response_node (llm : Except PyStr PyStr)
    (state : TeachingState) : TeachingState :=
  match llm with
  | .error e =>
      { state with error := some e, teacher_response := some apology }
  | .ok raw =>
      let quiz_ready := occursIn quizMarker raw
      let response_text :=
        if quiz_ready then pystrip (pyreplace raw quizMarker []) else raw
      let state :=
        if quiz_ready then { state with next_action := some (pystr "quiz") }
        else state
      { state with
        teacher_response := some response_text
        messages := state.messages ++
          [⟨pystr "user", state.user_input⟩,
           ⟨pystr "assistant", response_text⟩] }

/-- `TeachingGraph.generate_quiz_node`: on success store the generated
questions and set `phase = "quiz"`; on a raised exception record it and
substitute an empty quiz with zero score, not passed. -/
def generate_quiz_node (gen : Except PyStr (List QuizQuestion))
    (state : TeachingState) : TeachingState :=
  match gen with
  | .ok questions =>
      { state with quiz_questions := some questions, phase := pystr "quiz" }
  | .error e =>
      { state with error := some e
                   quiz_questions := some []
                   quiz_score := some 0
                   quiz_passed := some false }

/-- `TeachingGraph.evaluate_quiz_node`: when `quiz_answers` is missing or
empty (Python falsiness), record `"No quiz answers provided"` and return
unchanged; otherwise run `evaluate_quiz` — on success store score and pass
flag and set `phase = "evaluation"`, on a raised exception (length
mismatch, or a missing `quiz_questions` key) record it with zero score,
not passed. -/
def evaluate_quiz_node (state : TeachingState) : TeachingState :=
  let noAnswers := match state.quiz_answers with
    | none => true
    | some l => l.isEmpty
  if noAnswers then
    { state with error := some (pystr "No quiz answers provided") }
  else
    match state.quiz_questions with
    | none =>
        { state with error := some (pystr "KeyError: quiz_questions")
                     quiz_score := some 0
                     quiz_passed := some false }
    | some questions =>
        match evaluate_quiz questions (state.quiz_answers.getD []) with
        | .ok results =>
            { state with quiz_score := some results.score
                         quiz_passed := some results.passed
                         phase := pystr "evaluation" }
        | .error e =>
            { state with error := some e
                         quiz_score := some 0
                         quiz_passed := some false }

/-- `TeachingGraph.update_progress_node`: write the score and pass flag to
the progress store and re-read the current lesson id of the store.  If the
quiz was passed, `next_action` is `"next_lesson"` when the re-read id moved
past the `current_lesson_id` of the state and `"continue"` otherwise, with
`phase = "completed"`; if not passed, `next_action = "retry"` and
`phase = "teaching"`.  A raised store exception is recorded in `error`
and nothing else changes. -/
def update_progress_node (storeRead : Except PyStr Int)
    (state : TeachingState) : TeachingState :=
  let quiz_passed := state.quiz_passed.getD false
  match storeRead with
  | .error e => { state with error := some e }
  | .ok next_lesson_id =>
      if quiz_passed then
        { state with
          next_action := some (if next_lesson_id > state.current_lesson_id
            then pystr "next_lesson" else pystr "continue")
          phase := pystr "completed" }
      else
        { state with next_action := some (pystr "retry")
                     phase := pystr "teaching" }

/-! ## Routing and graph execution (`TeachingGraph._build_graph`) -/

/-- `TeachingGraph.route_after_greeting`. -/
def route_after_greeting (state : TeachingState) : PyStr :=
  if state.is_greeting.getD false then pystr "greet" else pystr "continue"

/-- `TeachingGraph.route_after_response`. -/
def route_after_response (state : TeachingState) : PyStr :=
  let next_action := state.next_action.getD (pystr "continue")
  if next_action = pystr "quiz" then pystr "quiz"
  else if next_action = pystr "exit" then pystr "exit"
  else pystr "continue"

/-- `TeachingGraph.route_after_progress` (all of its outcomes are wired to
`END`). -/
def route_after_progress (state : TeachingState) : PyStr :=
  state.next_action.getD (pystr "continue")

/-- The node names of the graph. -/
inductive GNode where
  | greeting
  | retrieve_content
  | generate_response
  | generate_quiz
  | evaluate_quiz
  | update_progress
deriving Repr, DecidableEq

/-- One run of the compiled graph, as the sequence of
`(node, state-after-node)` events it emits: entry at `greeting`; `greet`
routes to `END` while `continue` proceeds to `retrieve_content`, then
`generate_response`; the `quiz` route enters the fixed chain
`generate_quiz → evaluate_quiz → update_progress`, every other route (and
every `update_progress` outcome) ends the run. -/
def runTrace (c : Collaborators) (s0 : TeachingState) :
    List (GNode × TeachingState) :=
  let s1 := greeting_node c.greetingLLM s0
  if route_after_greeting s1 = pystr "greet" then
    [(.greeting, s1)]
  else
    let s2 := retrieve_content_node c.retrieval s1
    let s3 := generate_response_node c.responseLLM s2
    if route_after_response s3 = pystr "quiz" then
      let s4 := generate_quiz_node c.quizGen s3
      let s5 := evaluate_quiz_node s4
      let s6 := update_progress_node c.progressStore s5
      [(.greeting, s1), (.retrieve_content, s2), (.generate_response, s3),
       (.generate_quiz, s4), (.evaluate_quiz, s5), (.update_progress, s6)]
    else
      [(.greeting, s1), (.retrieve_content, s2), (.generate_response, s3)]

/-- `TeachingGraph.run`: the final state of the run, following the same
routing as `runTrace`. -/
def runGraph (c : Collaborators) (s0 : TeachingState) : TeachingState :=
  let s1 := greeting_node c.greetingLLM s0
  if route_after_greeting s1 = pystr "greet" then s1
  else
    let s2 := retrieve_content_node c.retrieval s1
    let s3 := generate_response_node c.responseLLM s2
    if route_after_response s3 = pystr "quiz" then
      update_progress_node c.progressStore
        (evaluate_quiz_node (generate_quiz_node c.quizGen s3))
    else s3

/-! ## Supporting lemmas: quiz evaluation -/

/-- Case-insensitive match between a submitted label and the stored
correct label of a question. -/
def caseMatch (q : QuizQuestion) (a : PyStr) : Bool :=
  pyupper a = pyupper (q.correct_answer.getD [])

theorem gradeAll_ok (pairs : List (QuizQuestion × PyStr)) :
    ∀ i, (∀ p ∈ pairs, (p.1.correct_answer).isSome) →
    ∃ entries, gradeAll i pairs = .ok entries ∧
      entries.countP (·.is_correct) = pairs.countP (fun p => caseMatch p.1 p.2) ∧
      entries.length = pairs.length := by
  induction pairs with
  | nil => intro i _; exact ⟨[], rfl, rfl, rfl⟩
  | cons hd tl ih =>
      intro i hsome
      obtain ⟨q, a⟩ := hd
      have hsq : (q.correct_answer).isSome := by simpa using hsome (q, a) (by simp)
      obtain ⟨c, hc⟩ := Option.isSome_iff_exists.mp hsq
      obtain ⟨es, hes, hcount, hlen⟩ :=
        ih (i + 1) (fun p hp => hsome p (by simp [hp]))
      refine ⟨⟨i, q.question, a, c, pyupper a = pyupper c⟩ :: es, ?_, ?_, ?_⟩
      · simp only [gradeAll, gradeOne, hc, hes]
        rfl
      · simp [List.countP_cons, hcount, caseMatch, hc]
      · simp [hlen]

/-! ## Claim C1 -/

/-- Claim C1: for question and answer lists of equal non-zero length,
`evaluate_quiz` returns (rather than raises), its score lies in `[0, 1]`
and equals the number of positions whose submitted label matches the
correct label of the question case-insensitively divided by the number of
questions, and `passed` holds exactly when the score reaches the
configured passing threshold `passing_score = 0.70`. -/
theorem C1_evaluate_quiz_score (questions : List QuizQuestion)
    (user_answers : List PyStr)
    (hlen : questions.length = user_answers.length)
    (hnz : questions.length ≠ 0)
    (hsome : ∀ q ∈ questions, q.correct_answer.isSome) :
    ∃ r, evaluate_quiz questions user_answers = .ok r ∧
      r.score = ((questions.zip user_answers).countP
          (fun p => caseMatch p.1 p.2) : ℚ) / (questions.length : ℚ) ∧
      0 ≤ r.score ∧ r.score ≤ 1 ∧
      (r.passed = true ↔ r.score ≥ passing_score) := by
  obtain ⟨entries, hes, hcount, hlenes⟩ :=
    gradeAll_ok (questions.zip user_answers) 1
      (fun p hp => hsome p.1 (List.of_mem_zip hp).1)
  have hcond : ¬ questions.length ≠ user_answers.length := by simp [hlen]
  have hpos : (0 : ℚ) < (questions.length : ℚ) := by
    exact_mod_cast Nat.pos_of_ne_zero hnz
  have hle : ((questions.zip user_answers).countP
      (fun p => caseMatch p.1 p.2) : ℚ) ≤ (questions.length : ℚ) := by
    have h1 : (questions.zip user_answers).countP (fun p => caseMatch p.1 p.2)
        ≤ (questions.zip user_answers).length := List.countP_le_length _
    have h2 : (questions.zip user_answers).length = questions.length := by
      simp [List.length_zip, hlen]
    exact_mod_cast h2 ▸ h1
  have hok : evaluate_quiz questions user_answers = .ok
      { total_questions := questions.length
        correct_answers := entries.countP (·.is_correct)
        score := (entries.countP (·.is_correct) : ℚ) / (questions.length : ℚ)
        percentage := (entries.countP (·.is_correct) : ℚ) / (questions.length : ℚ) * 100
        passed := decide ((entries.countP (·.is_correct) : ℚ) / (questions.length : ℚ) ≥ passing_score)
        results := entries } := by
    simp only [evaluate_quiz, if_neg hcond, hes]
    rfl
  refine ⟨_, hok, ?_, ?_, ?_, ?_⟩
  · simp [hcount]
  · exact div_nonneg (by positivity) (le_of_lt hpos)
  · refine (div_le_one hpos).mpr ?_
    rw [← hcount] at hle
    exact hle
  · simp [decide_eq_true_eq, ge_iff_le]

/-- Witness for C1 at a concrete two-question quiz with one
case-insensitive match out of two. -/
theorem C1_witness :
    ∃ r, evaluate_quiz
        [⟨pystr "q1", [], some (pystr "a")⟩, ⟨pystr "q2", [], some (pystr "B")⟩]
        [pystr "A", pystr "c"] = .ok r ∧
      r.score = ((([⟨pystr "q1", [], some (pystr "a")⟩,
          ⟨pystr "q2", [], some (pystr "B")⟩] :
            List QuizQuestion).zip [pystr "A", pystr "c"]).countP
          (fun p => caseMatch p.1 p.2) : ℚ) / (2 : ℚ) ∧
      0 ≤ r.score ∧ r.score ≤ 1 ∧
      (r.passed = true ↔ r.score ≥ passing_score) :=
  C1_evaluate_quiz_score _ _ (by decide) (by decide) (by decide)

/-! ## Claim C3 -/

/-- Claim C3: for question and answer lists of unequal length,
`evaluate_quiz` raises `ValueError` — it returns the `.error` outcome, so
no score (no `EvalResult` at all) is produced and nothing is truncated or
padded. -/
theorem C3_evaluate_quiz_mismatch (questions : List QuizQuestion)
    (user_answers : List PyStr)
    (hlen : questions.length ≠ user_answers.length) :
    evaluate_quiz questions user_answers =
      .error (pystr "Number of answers doesn" ++ [apoc] ++
        pystr "t match number of questions") := by
  simp [evaluate_quiz, hlen]

/-- Witness for C3: one question, two answers. -/
theorem C3_witness :
    evaluate_quiz [⟨pystr "q1", [], some (pystr "A")⟩]
        [pystr "A", pystr "B"] =
      .error (pystr "Number of answers doesn" ++ [apoc] ++
        pystr "t match number of questions") :=
  C3_evaluate_quiz_mismatch _ _ (by decide)

/-! ## Claim C2: parser machinery -/

/-- One question group of an LLM quiz response: its `Qk:` line, its
option lines, and its `Correct:` line when present. -/
structure QGroup where
  qline : PyStr
  optLines : List PyStr
  corrLine : Option PyStr
deriving Repr, DecidableEq

/-- The raw lines a group contributes to the response text. -/
def QGroup.lines (g : QGroup) : List PyStr :=
  g.qline :: (g.optLines ++ g.corrLine.toList)

/-- A well-formed question line: non-blank after stripping, recognized by
the question-line test of the parser, with non-empty text after the colon. -/
def wfQLine (l : PyStr) : Bool :=
  !(pystrip l).isEmpty && isQLine (pystrip l) &&
    !(pystrip (afterFirstColon (pystrip l))).isEmpty

/-- A well-formed option line: non-blank, not a question line, recognized
by the option-line test of the parser. -/
def wfOptLine (l : PyStr) : Bool :=
  !(pystrip l).isEmpty && !(isQLine (pystrip l)) && isOptLine (pystrip l)

/-- A well-formed `Correct:` line: non-blank, not a question or option
line, recognized by the correct-line test of the parser. -/
def wfCorrLine (l : PyStr) : Bool :=
  !(pystrip l).isEmpty && !(isQLine (pystrip l)) &&
    !(isOptLine (pystrip l)) && isCorrectLine (pystrip l)

/-- A well-formed group: every line is of the shape the corresponding
parser branch recognizes. -/
def wellFormedGroup (g : QGroup) : Bool :=
  wfQLine g.qline && g.optLines.all wfOptLine &&
    (match g.corrLine with
     | none => true
     | some l => wfCorrLine l)

/-- The option record the parser extracts from an option line. -/
def optionOfLine (l : PyStr) : QOption :=
  ⟨(pystrip l).take 1, pystrip ((pystrip l).drop 2)⟩

/-- The question text the parser extracts from a question line. -/
def qtextOf (l : PyStr) : PyStr := pystrip (afterFirstColon (pystrip l))

/-- The correct label the parser extracts from a `Correct:` line. -/
def corrOf (l : PyStr) : PyStr := pystrip (secondColonField (pystrip l))

/-- The question record a well-formed group parses to. -/
def QGroup.expected (g : QGroup) : QuizQuestion :=
  ⟨qtextOf g.qline, g.optLines.map optionOfLine, g.corrLine.map corrOf⟩

/-- The contribution of a group to the parsed output: nothing when it has
no option lines, otherwise its expected question record. -/
def QGroup.expectedList (g : QGroup) : List QuizQuestion :=
  if g.optLines.isEmpty then [] else [g.expected]

theorem parseLine_q (st : ParseAcc) (l : PyStr) (h : wfQLine l = true) :
    parseLine st l = ⟨flushQuestion st, some (qtextOf l), [], none⟩ := by
  obtain ⟨⟨h1, h2⟩, h3⟩ := by simpa [wfQLine, Bool.and_eq_true] using h
  have h1n : ¬ pystrip l = [] := by simpa [List.isEmpty_iff] using h1
  simp [parseLine, h1n, h2, qtextOf]

theorem parseLine_opt (st : ParseAcc) (l : PyStr) (h : wfOptLine l = true) :
    parseLine st l =
      { st with current_options := st.current_options ++ [optionOfLine l] } := by
  obtain ⟨⟨h1, h2⟩, h3⟩ := by simpa [wfOptLine, Bool.and_eq_true] using h
  have h1n : ¬ pystrip l = [] := by simpa [List.isEmpty_iff] using h1
  have h2n : ¬ isQLine (pystrip l) = true := by simpa using h2
  simp [parseLine, h1n, h2n, h3, optionOfLine]

theorem parseLine_corr (st : ParseAcc) (l : PyStr) (h : wfCorrLine l = true) :
    parseLine st l = { st with current_correct := some (corrOf l) } := by
  obtain ⟨⟨⟨h1, h2⟩, h3⟩, h4⟩ := by simpa [wfCorrLine, Bool.and_eq_true] using h
  have h1n : ¬ pystrip l = [] := by simpa [List.isEmpty_iff] using h1
  have h2n : ¬ isQLine (pystrip l) = true := by simpa using h2
  have h3n : ¬ isOptLine (pystrip l) = true := by simpa using h3
  simp [parseLine, h1n, h2n, h3n, h4, corrOf]

theorem foldl_optLines (ls : List PyStr) :
    ∀ st : ParseAcc, (∀ l ∈ ls, wfOptLine l = true) →
    ls.foldl parseLine st =
      { st with current_options := st.current_options ++ ls.map optionOfLine } := by
  induction ls with
  | nil => intro st _; simp
  | cons hd tl ih =>
      intro st h
      rw [List.foldl_cons, parseLine_opt st hd (h hd (by simp)),
        ih _ (fun l hl => h l (by simp [hl]))]
      simp

theorem foldl_group (g : QGroup) (h : wellFormedGroup g = true)
    (st : ParseAcc) :
    g.lines.foldl parseLine st =
      ⟨flushQuestion st, some (qtextOf g.qline),
        g.optLines.map optionOfLine, g.corrLine.map corrOf⟩ := by
  obtain ⟨⟨hq, hopts⟩, hcorr⟩ := by
    simpa [wellFormedGroup, Bool.and_eq_true] using h
  have hopts' : ∀ l ∈ g.optLines, wfOptLine l = true := by
    simpa [List.all_eq_true] using hopts
  rw [QGroup.lines, List.foldl_cons, parseLine_q st g.qline hq,
    List.foldl_append, foldl_optLines g.optLines _ hopts']
  cases hc : g.corrLine with
  | none => simp [Option.toList]
  | some l =>
      have hwfc : wfCorrLine l = true := by
        simpa [hc] using hcorr
      simp [Option.toList, parseLine_corr _ l hwfc]

theorem flush_expected (g : QGroup) (h : wellFormedGroup g = true)
    (acc : List QuizQuestion) :
    flushQuestion ⟨acc, some (qtextOf g.qline),
        g.optLines.map optionOfLine, g.corrLine.map corrOf⟩ =
      acc ++ g.expectedList := by
  obtain ⟨⟨hq, _⟩, _⟩ := by
    simpa [wellFormedGroup, Bool.and_eq_true] using h
  obtain ⟨_, htext⟩ := by simpa [wfQLine, Bool.and_eq_true] using hq
  have htext' : qtextOf g.qline ≠ [] := by
    simpa [qtextOf, List.isEmpty_iff] using htext
  cases ho : g.optLines with
  | nil => simp [flushQuestion, QGroup.expectedList, ho]
  | cons a as =>
      simp [flushQuestion, QGroup.expectedList, ho, htext',
        QGroup.expected]

theorem foldGroups (groups : List QGroup)
    (h : ∀ g ∈ groups, wellFormedGroup g = true) :
    ∀ st : ParseAcc,
    flushQuestion (((groups.map QGroup.lines).flatten).foldl parseLine st) =
      flushQuestion st ++ (groups.map QGroup.expectedList).flatten := by
  induction groups with
  | nil => intro st; simp
  | cons g gs ih =>
      intro st
      have hg : wellFormedGroup g = true := h g (by simp)
      rw [List.map_cons, List.map_cons, List.flatten_cons, List.flatten_cons,
        List.foldl_append, foldl_group g hg st,
        ih (fun x hx => h x (by simp [hx])) _, flush_expected g hg,
        List.append_assoc]

/-! ## Claim C2: theorem, witness, counterexample -/

/-- Amended claim C2: when the (stripped) response text splits into the
lines of a sequence of question groups whose lines are each of the shape
the corresponding parser branch recognizes, the parser returns exactly the
per-group contributions in order: a group with at least one option line
yields one structured record whose option labels map to the corresponding
option texts and whose `correct_answer` is the extracted `Correct:` label
when that line is present and `None` when it is absent (included with the
default, not excluded); a group with no option lines is excluded.  In
particular, `N` groups that each have option lines yield exactly `N`
records. -/
theorem C2_parse_wellformed (groups : List QGroup) (response_text : PyStr)
    (hsplit : splitChar '\n' (pystrip response_text) =
      (groups.map QGroup.lines).flatten)
    (hwf : ∀ g ∈ groups, wellFormedGroup g = true) :
    parse_quiz_response response_text =
      (groups.map QGroup.expectedList).flatten ∧
    ((∀ g ∈ groups, g.optLines ≠ []) →
      (parse_quiz_response response_text).length = groups.length) := by
  have hmain : parse_quiz_response response_text =
      (groups.map QGroup.expectedList).flatten := by
    unfold parse_quiz_response
    rw [hsplit, foldGroups groups hwf]
    rfl
  refine ⟨hmain, fun hne => ?_⟩
  rw [hmain]
  clear hmain hsplit hwf
  induction groups with
  | nil => rfl
  | cons g gs ih =>
      have hg : g.optLines ≠ [] := hne g (by simp)
      have hone : QGroup.expectedList g = [g.expected] := by
        simp [QGroup.expectedList, hg]
      rw [List.map_cons, List.flatten_cons, List.length_append, hone,
        ih (fun x hx => hne x (by simp [hx]))]
      simp [Nat.add_comm]

/-- Witness for C2 at a concrete well-formed one-group response. -/
theorem C2_witness :
    parse_quiz_response
        (pystr "Q1: What is a noun?\nA) thing\nB) verb\nC) adverb\nD) tense\nCorrect: A") =
      (([⟨pystr "Q1: What is a noun?",
          [pystr "A) thing", pystr "B) verb", pystr "C) adverb", pystr "D) tense"],
          some (pystr "Correct: A")⟩] : List QGroup).map QGroup.expectedList).flatten ∧
    ((∀ g ∈ ([⟨pystr "Q1: What is a noun?",
          [pystr "A) thing", pystr "B) verb", pystr "C) adverb", pystr "D) tense"],
          some (pystr "Correct: A")⟩] : List QGroup), g.optLines ≠ []) →
      (parse_quiz_response
        (pystr "Q1: What is a noun?\nA) thing\nB) verb\nC) adverb\nD) tense\nCorrect: A")).length =
        ([⟨pystr "Q1: What is a noun?",
          [pystr "A) thing", pystr "B) verb", pystr "C) adverb", pystr "D) tense"],
          some (pystr "Correct: A")⟩] : List QGroup).length) :=
  C2_parse_wellformed _ _ (by decide) (by decide)

/-- Counterexample to C2 as stated: a block that has its question line and
its four option lines but no `Correct:` line is included in the returned
list with `correct_answer` defaulted to `None`, not excluded. -/
theorem C2_counterexample :
    parse_quiz_response (pystr "Q1: q\nA) a\nB) b\nC) c\nD) d") =
      [⟨pystr "q",
        [⟨pystr "A", pystr "a"⟩, ⟨pystr "B", pystr "b"⟩,
         ⟨pystr "C", pystr "c"⟩, ⟨pystr "D", pystr "d"⟩], none⟩] := by
  decide

/-! ## Supporting lemmas: node field preservation -/

theorem greeting_node_phase (llm : Except PyStr PyStr) (s : TeachingState) :
    (greeting_node llm s).phase = s.phase := by
  simp only [greeting_node]
  by_cases h : pystrip s.user_input = [] ∨ pystrip s.user_input = greetingSentinel
  · rw [if_neg (not_not_intro h)]
    cases llm <;> rfl
  · rw [if_pos h]

theorem retrieve_content_node_phase (r : Except PyStr (List PyStr))
    (s : TeachingState) : (retrieve_content_node r s).phase = s.phase := by
  cases r <;> rfl

theorem generate_response_node_phase (llm : Except PyStr PyStr)
    (s : TeachingState) : (generate_response_node llm s).phase = s.phase := by
  cases llm with
  | error e => rfl
  | ok raw =>
      unfold generate_response_node
      by_cases h : occursIn quizMarker raw <;> simp [h]

theorem generate_quiz_node_phase (g : Except PyStr (List QuizQuestion))
    (s : TeachingState) :
    (generate_quiz_node g s).phase = pystr "quiz" ∨
      (generate_quiz_node g s).phase = s.phase := by
  cases g with
  | ok qs => exact Or.inl rfl
  | error e => exact Or.inr rfl

theorem evaluate_quiz_node_phase (s : TeachingState) :
    (evaluate_quiz_node s).phase = pystr "evaluation" ∨
      (evaluate_quiz_node s).phase = s.phase := by
  unfold evaluate_quiz_node
  cases hqa : s.quiz_answers with
  | none => exact Or.inr rfl
  | some l =>
      cases l with
      | nil => exact Or.inr rfl
      | cons a as =>
          cases hqq : s.quiz_questions with
          | none => exact Or.inr rfl
          | some questions =>
              dsimp only
              cases hev : evaluate_quiz questions
                  ((some (a :: as) : Option (List PyStr)).getD []) with
              | ok r => exact Or.inl rfl
              | error e => exact Or.inr rfl

theorem update_progress_node_phase (r : Except PyStr Int) (s : TeachingState) :
    (update_progress_node r s).phase = pystr "completed" ∨
      (update_progress_node r s).phase = pystr "teaching" ∨
      (update_progress_node r s).phase = s.phase := by
  unfold update_progress_node
  cases r with
  | error e => exact Or.inr (Or.inr rfl)
  | ok n =>
      by_cases h : s.quiz_passed.getD false <;> simp [h]

theorem generate_quiz_node_tr (g : Except PyStr (List QuizQuestion))
    (s : TeachingState) :
    (generate_quiz_node g s).teacher_response = s.teacher_response := by
  cases g <;> rfl

theorem evaluate_quiz_node_tr (s : TeachingState) :
    (evaluate_quiz_node s).teacher_response = s.teacher_response := by
  unfold evaluate_quiz_node
  cases hqa : s.quiz_answers with
  | none => rfl
  | some l =>
      cases l with
      | nil => rfl
      | cons a as =>
          cases hqq : s.quiz_questions with
          | none => rfl
          | some questions =>
              dsimp only
              cases hev : evaluate_quiz questions
                  ((some (a :: as) : Option (List PyStr)).getD []) with
              | ok r => rfl
              | error e => rfl

theorem update_progress_node_tr (r : Except PyStr Int) (s : TeachingState) :
    (update_progress_node r s).teacher_response = s.teacher_response := by
  unfold update_progress_node
  cases r with
  | error e => rfl
  | ok n => by_cases h : s.quiz_passed.getD false <;> simp [h]

/-- The text `generate_response_node` stores as `teacher_response`, as a
function of the outcome of the LLM call: the apology on failure, the raw output
with the quiz marker stripped when present, the raw output otherwise. -/
def responseTextOf (llm : Except PyStr PyStr) : PyStr :=
  match llm with
  | .error _ => apology
  | .ok raw =>
      if occursIn quizMarker raw then pystrip (pyreplace raw quizMarker [])
      else raw

theorem generate_response_node_tr (llm : Except PyStr PyStr)
    (s : TeachingState) :
    (generate_response_node llm s).teacher_response =
      some (responseTextOf llm) := by
  cases llm with
  | error e => rfl
  | ok raw =>
      unfold generate_response_node responseTextOf
      by_cases h : occursIn quizMarker raw <;> simp [h]

/-- Shorthand for the greeting-request test of `greeting_node`. -/
def isGreetingInput (s : TeachingState) : Prop :=
  pystrip s.user_input = [] ∨ pystrip s.user_input = greetingSentinel

instance (s : TeachingState) : Decidable (isGreetingInput s) := by
  unfold isGreetingInput
  infer_instance

/-! ## Example inputs reused by the concrete-run theorems -/

/-- A baseline non-greeting teaching state. -/
def baseState : TeachingState where
  user_id := pystr "user_1"
  current_lesson_id := 1
  lesson_title := pystr "Present Simple"
  messages := []
  user_input := pystr "hello"
  retrieved_content := none
  teacher_response := none
  phase := pystr "teaching"
  quiz_questions := none
  quiz_answers := none
  quiz_score := none
  quiz_passed := none
  next_action := none
  is_greeting := none
  error := none

/-- A baseline bundle of successful collaborator outcomes. -/
def okCollab : Collaborators where
  greetingLLM := .ok (pystr "Welcome!")
  retrieval := .ok []
  responseLLM := .ok (pystr "Here is an explanation.")
  quizGen := .ok []
  progressStore := .ok 2

/-! ## Claim C4 -/

/-- Amended claim C4: the greeting node strips `user_input` before
comparing, so whenever the stripped input is empty (hence also for
whitespace-only input) or equals the sentinel, `is_greeting` is set true
and the run ends at the greeting node without Retrieve Content (or any
later node) running; for every input whose stripped form is neither, the
run proceeds through Retrieve Content. -/
theorem C4_greeting_routing (c : Collaborators) (s : TeachingState) :
    (isGreetingInput s →
      (greeting_node c.greetingLLM s).is_greeting = some true ∧
      (runTrace c s).map Prod.fst = [GNode.greeting]) ∧
    (¬ isGreetingInput s →
      (greeting_node c.greetingLLM s).is_greeting = some false ∧
      ∃ rest, (runTrace c s).map Prod.fst =
        GNode.greeting :: GNode.retrieve_content ::
          GNode.generate_response :: rest) := by
  constructor
  · intro h
    have hg : (greeting_node c.greetingLLM s).is_greeting = some true := by
      simp only [greeting_node]
      rw [if_neg (not_not_intro (by simpa [isGreetingInput] using h))]
      cases c.greetingLLM <;> rfl
    refine ⟨hg, ?_⟩
    unfold runTrace
    rw [if_pos (by simp [route_after_greeting, hg])]
    rfl
  · intro h
    have hg : (greeting_node c.greetingLLM s).is_greeting = some false := by
      simp only [greeting_node]
      rw [if_pos (by simpa [isGreetingInput] using h)]
    refine ⟨hg, ?_⟩
    unfold runTrace
    rw [if_neg (by simp [route_after_greeting, hg, pystr])]
    dsimp only
    split
    · exact ⟨[GNode.generate_quiz, GNode.evaluate_quiz,
        GNode.update_progress], rfl⟩
    · exact ⟨[], rfl⟩

/-- Witness for C4 on a sentinel input. -/
theorem C4_witness :
    (greeting_node okCollab.greetingLLM
        { baseState with user_input := pystr "__greeting__" }).is_greeting = some true ∧
    (runTrace okCollab
        { baseState with user_input := pystr "__greeting__" }).map Prod.fst =
      [GNode.greeting] :=
  (C4_greeting_routing okCollab
    { baseState with user_input := pystr "__greeting__" }).1 (by decide)

/-- Counterexample to C4 as stated: the whitespace-only input `" "` is
neither empty nor the sentinel, yet the run ends at the greeting node and
never reaches Retrieve Content, because the node strips the input before
comparing. -/
theorem C4_counterexample :
    ¬ ((pystr " ") = [] ∨ (pystr " ") = greetingSentinel) ∧
    (runTrace okCollab { baseState with user_input := pystr " " }).map
      Prod.fst = [GNode.greeting] := by
  decide

/-! ## Claim C5 -/

/-- Amended claim C5: when the LLM output contains `[QUIZ_READY]`, the
stored `teacher_response` is the output with the marker removed and
stripped, `next_action` becomes `"quiz"` and the route after Generate
Response enters Generate Quiz.  When the marker is absent this node leaves
`next_action` unchanged, so the route enters Generate Quiz exactly when
the incoming state already carried `next_action = "quiz"` (which callers
can pre-set, e.g. the websocket keyword heuristic) and terminates the turn
otherwise — the marker is not the sole mechanism for entering quiz mode. -/
theorem C5_quiz_marker (s : TeachingState) (raw : PyStr) :
    (occursIn quizMarker raw = true →
      (generate_response_node (.ok raw) s).teacher_response =
        some (pystrip (pyreplace raw quizMarker [])) ∧
      (generate_response_node (.ok raw) s).next_action = some (pystr "quiz") ∧
      route_after_response (generate_response_node (.ok raw) s) =
        pystr "quiz") ∧
    (occursIn quizMarker raw = false →
      (generate_response_node (.ok raw) s).teacher_response = some raw ∧
      (generate_response_node (.ok raw) s).next_action = s.next_action ∧
      (route_after_response (generate_response_node (.ok raw) s) =
          pystr "quiz" ↔ s.next_action = some (pystr "quiz"))) := by
  constructor
  · intro h
    refine ⟨?_, ?_, ?_⟩ <;>
      simp [generate_response_node, h, route_after_response]
  · intro h
    refine ⟨?_, ?_, ?_⟩
    · simp [generate_response_node, h]
    · simp [generate_response_node, h]
    · have hna : (generate_response_node (.ok raw) s).next_action =
          s.next_action := by simp [generate_response_node, h]
      unfold route_after_response
      rw [hna]
      cases hv : s.next_action with
      | none => simp [Option.getD]; decide
      | some v =>
          simp only [Option.getD]
          by_cases hq : v = pystr "quiz"
          · simp [hq]
          · rw [if_neg hq]
            constructor
            · intro hfalse
              exfalso
              by_cases he : v = pystr "exit"
              · rw [if_pos he] at hfalse
                exact absurd hfalse (by decide)
              · rw [if_neg he] at hfalse
                exact absurd hfalse (by decide)
            · intro hfalse
              exact absurd (Option.some.inj hfalse) hq

/-- Witness for C5 on a marker-bearing LLM output. -/
theorem C5_witness :
    (generate_response_node (.ok (pystr "Great! [QUIZ_READY]"))
        baseState).teacher_response =
      some (pystrip (pyreplace (pystr "Great! [QUIZ_READY]") quizMarker [])) ∧
    (generate_response_node (.ok (pystr "Great! [QUIZ_READY]"))
        baseState).next_action = some (pystr "quiz") ∧
    route_after_response (generate_response_node
        (.ok (pystr "Great! [QUIZ_READY]")) baseState) = pystr "quiz" :=
  (C5_quiz_marker baseState (pystr "Great! [QUIZ_READY]")).1 (by decide)

/-- Counterexample to C5 as stated: with a marker-free LLM output but an
incoming `next_action = "quiz"` (as the websocket keyword heuristic
pre-sets), the turn does not terminate after Generate Response — the run
proceeds into Generate Quiz, so the marker is not the sole in-graph
mechanism for entering quiz mode. -/
theorem C5_counterexample :
    occursIn quizMarker (pystr "Let me explain nouns.") = false ∧
    (runTrace
        { okCollab with responseLLM := .ok (pystr "Let me explain nouns.") }
        { baseState with next_action := some (pystr "quiz") }).map Prod.fst =
      [GNode.greeting, GNode.retrieve_content, GNode.generate_response,
       GNode.generate_quiz, GNode.evaluate_quiz, GNode.update_progress] := by
  decide

/-! ## Claim C6 -/

/-- Claim C6: entering Update Progress with `quiz_passed` true sets
`phase = "completed"` and `next_action = "next_lesson"` when the current
lesson id of the store read after the write exceeds the
`current_lesson_id` of the state, `"continue"` when it does not; with `quiz_passed`
false (or unset, Python default) it sets `next_action = "retry"` and
`phase = "teaching"`. -/
theorem C6_update_progress_node (s : TeachingState) (n : Int) :
    (s.quiz_passed.getD false = true → n > s.current_lesson_id →
      (update_progress_node (.ok n) s).next_action =
        some (pystr "next_lesson") ∧
      (update_progress_node (.ok n) s).phase = pystr "completed") ∧
    (s.quiz_passed.getD false = true → ¬ n > s.current_lesson_id →
      (update_progress_node (.ok n) s).next_action =
        some (pystr "continue") ∧
      (update_progress_node (.ok n) s).phase = pystr "completed") ∧
    (s.quiz_passed.getD false = false →
      (update_progress_node (.ok n) s).next_action = some (pystr "retry") ∧
      (update_progress_node (.ok n) s).phase = pystr "teaching") := by
  refine ⟨?_, ?_, ?_⟩
  · intro hp hgt
    constructor <;> simp [update_progress_node, hp, hgt]
  · intro hp hgt
    constructor <;> simp [update_progress_node, hp, hgt]
  · intro hp
    constructor <;> simp [update_progress_node, hp]

/-- Witness for C6: passed quiz, store advanced from lesson 1 to 2. -/
theorem C6_witness :
    (update_progress_node (.ok 2)
        { baseState with quiz_passed := some true }).next_action =
      some (pystr "next_lesson") ∧
    (update_progress_node (.ok 2)
        { baseState with quiz_passed := some true }).phase =
      pystr "completed" :=
  (C6_update_progress_node { baseState with quiz_passed := some true } 2).1
    (by decide) (by decide)

/-! ## Claim C7 -/

/-- The forward order of lifecycle phases:
teaching → quiz → evaluation → completed. -/
def phaseRank (p : PyStr) : Nat :=
  if p = pystr "teaching" then 0
  else if p = pystr "quiz" then 1
  else if p = pystr "evaluation" then 2
  else if p = pystr "completed" then 3
  else 0

/-- Check a pairwise relation along a trace, starting from the pre-run
state. -/
def traceChain (f : GNode × TeachingState → GNode × TeachingState → Bool) :
    GNode × TeachingState → List (GNode × TeachingState) → Bool
  | _, [] => true
  | prev, x :: rest => f prev x && traceChain f x rest

/-- One step never moves the phase backwards (claim C7 as stated). -/
def phaseStepOk (a b : GNode × TeachingState) : Bool :=
  decide (phaseRank a.2.phase ≤ phaseRank b.2.phase)

/-- The amended per-step condition: every node except Update Progress
moves the phase only forward; Update Progress ends the run at
`"completed"` or back at `"teaching"` (or leaves the phase unchanged when
the store write fails). -/
def amendedStepOk (a b : GNode × TeachingState) : Bool :=
  if b.1 = GNode.update_progress then
    decide (b.2.phase = pystr "completed") ||
      decide (b.2.phase = pystr "teaching") ||
      decide (b.2.phase = a.2.phase)
  else decide (phaseRank a.2.phase ≤ phaseRank b.2.phase)

/-- Amended claim C7: in a run starting from phase `"teaching"`, every
node before Update Progress moves the phase only forward along
teaching → quiz → evaluation; Update Progress alone can move it back,
setting `"completed"` on a passed quiz and `"teaching"` on a failed one
(the originally claimed forward-only property fails there, see the
counterexample).  Moreover evaluation is never skipped after quiz
generation: whenever Generate Quiz runs, the trace is exactly the full
chain with Evaluate Quiz immediately after it. -/
theorem C7_phase_forward (c : Collaborators) (s0 : TeachingState)
    (h : s0.phase = pystr "teaching") :
    traceChain amendedStepOk (GNode.greeting, s0) (runTrace c s0) = true ∧
    (GNode.generate_quiz ∈ (runTrace c s0).map Prod.fst →
      (runTrace c s0).map Prod.fst =
        [GNode.greeting, GNode.retrieve_content, GNode.generate_response,
         GNode.generate_quiz, GNode.evaluate_quiz, GNode.update_progress]) := by
  have h1 := greeting_node_phase c.greetingLLM s0
  unfold runTrace
  dsimp only
  split
  · constructor
    · have t1 : amendedStepOk (GNode.greeting, s0)
          (GNode.greeting, greeting_node c.greetingLLM s0) = true := by
        simp [amendedStepOk, h1]
      simp [traceChain, t1]
    · intro hmem
      simp at hmem
  · set s1 := greeting_node c.greetingLLM s0 with hs1
    set s2 := retrieve_content_node c.retrieval s1 with hs2
    set s3 := generate_response_node c.responseLLM s2 with hs3
    have h2 : s2.phase = s1.phase := retrieve_content_node_phase _ _
    have h3 : s3.phase = s2.phase := generate_response_node_phase _ _
    have h123 : s3.phase = pystr "teaching" := by rw [h3, h2, h1, h]
    split
    · set s4 := generate_quiz_node c.quizGen s3 with hs4
      set s5 := evaluate_quiz_node s4 with hs5
      set s6 := update_progress_node c.progressStore s5 with hs6
      have h4 : s4.phase = pystr "quiz" ∨ s4.phase = s3.phase :=
        generate_quiz_node_phase _ _
      have h5 : s5.phase = pystr "evaluation" ∨ s5.phase = s4.phase :=
        evaluate_quiz_node_phase _
      have h6 : s6.phase = pystr "completed" ∨ s6.phase = pystr "teaching" ∨
          s6.phase = s5.phase := update_progress_node_phase _ _
      constructor
      · have hr4 : phaseRank s3.phase ≤ phaseRank s4.phase := by
          rcases h4 with h4 | h4
          · rw [h4, h123]; simp [phaseRank]
          · rw [h4]
        have hr5 : phaseRank s4.phase ≤ phaseRank s5.phase := by
          rcases h5 with h5 | h5
          · rcases h4 with h4 | h4
            · rw [h5, h4]; simp [phaseRank, pystr]
            · rw [h5, h4, h123]; simp [phaseRank, pystr]
          · rw [h5]
        have t1 : amendedStepOk (GNode.greeting, s0) (GNode.greeting, s1) =
            true := by simp [amendedStepOk, h1]
        have t2 : amendedStepOk (GNode.greeting, s1)
            (GNode.retrieve_content, s2) = true := by
          simp [amendedStepOk, h2]
        have t3 : amendedStepOk (GNode.retrieve_content, s2)
            (GNode.generate_response, s3) = true := by
          simp [amendedStepOk, h3]
        have t4 : amendedStepOk (GNode.generate_response, s3)
            (GNode.generate_quiz, s4) = true := by
          simp [amendedStepOk, hr4]
        have t5 : amendedStepOk (GNode.generate_quiz, s4)
            (GNode.evaluate_quiz, s5) = true := by
          simp [amendedStepOk, hr5]
        have t6 : amendedStepOk (GNode.evaluate_quiz, s5)
            (GNode.update_progress, s6) = true := by
          rcases h6 with h6 | h6 | h6 <;> simp [amendedStepOk, h6]
        simp [traceChain, t1, t2, t3, t4, t5, t6]
      · intro _
        rfl
    · constructor
      · have t1 : amendedStepOk (GNode.greeting, s0) (GNode.greeting, s1) =
            true := by simp [amendedStepOk, h1]
        have t2 : amendedStepOk (GNode.greeting, s1)
            (GNode.retrieve_content, s2) = true := by
          simp [amendedStepOk, h2]
        have t3 : amendedStepOk (GNode.retrieve_content, s2)
            (GNode.generate_response, s3) = true := by
          simp [amendedStepOk, h3]
        simp [traceChain, t1, t2, t3]
      · intro hmem
        simp at hmem

/-- Collaborators of a concrete quiz run: the response LLM emits the quiz
marker and quiz generation returns one question with correct label `A`. -/
def quizRunCollab : Collaborators :=
  { okCollab with
    responseLLM := .ok (pystr "Nice work! [QUIZ_READY]")
    quizGen := .ok [⟨pystr "q", [], some (pystr "A")⟩] }

/-- A state carrying two submitted answers (a failing evaluation for the
one-question quiz above). -/
def quizRunState : TeachingState :=
  { baseState with quiz_answers := some [pystr "A", pystr "B"] }

/-- Witness for C7 on the concrete quiz run. -/
theorem C7_witness :
    traceChain amendedStepOk (GNode.greeting, quizRunState)
      (runTrace quizRunCollab quizRunState) = true ∧
    (GNode.generate_quiz ∈ (runTrace quizRunCollab quizRunState).map Prod.fst →
      (runTrace quizRunCollab quizRunState).map Prod.fst =
        [GNode.greeting, GNode.retrieve_content, GNode.generate_response,
         GNode.generate_quiz, GNode.evaluate_quiz, GNode.update_progress]) :=
  C7_phase_forward quizRunCollab quizRunState (by decide)

/-- Counterexample to C7 as stated: on a failed quiz (here: one question,
two submitted answers, so evaluation records a failure) Update Progress
sets the phase from `"quiz"` back to `"teaching"` — the phase does not
transition only forward within the run. -/
theorem C7_counterexample :
    traceChain phaseStepOk (GNode.greeting, quizRunState)
      (runTrace quizRunCollab quizRunState) = false := by
  decide

/-! ## Claim C8 -/

/-- The greeting text `greeting_node` stores, as a function of the
outcome of the LLM call. -/
def greetingTextOf (llm : Except PyStr PyStr) (lesson_title : PyStr) : PyStr :=
  match llm with
  | .ok t => t
  | .error _ => fallbackGreeting lesson_title

/-- Amended claim C8: every run ends with `teacher_response` set — on the
non-greeting path to the text `generate_response_node` computed from the
LLM outcome (the marker-stripped LLM output on success, the fixed apology
on failure), on the greeting path to the LLM greeting or the templated
fallback embedding the lesson title.  The response is non-empty whenever
that computed text is (the apology and the fallback always are), but the
unconditional non-emptiness of the original claim fails for an empty LLM
output, see the counterexample. -/
theorem C8_teacher_response (c : Collaborators) (s : TeachingState) :
    (¬ isGreetingInput s →
      (runGraph c s).teacher_response = some (responseTextOf c.responseLLM)) ∧
    (isGreetingInput s →
      (runGraph c s).teacher_response =
        some (greetingTextOf c.greetingLLM s.lesson_title)) ∧
    apology ≠ [] ∧ (∀ t, fallbackGreeting t ≠ []) := by
  refine ⟨?_, ?_, by decide, fun t => by simp [fallbackGreeting, pystr]⟩
  · intro h
    have hg : (greeting_node c.greetingLLM s).is_greeting = some false := by
      simp only [greeting_node]
      rw [if_pos (by simpa [isGreetingInput] using h)]
    unfold runGraph
    rw [if_neg (by simp [route_after_greeting, hg, pystr])]
    dsimp only
    split
    · rw [update_progress_node_tr, evaluate_quiz_node_tr,
        generate_quiz_node_tr, generate_response_node_tr]
    · rw [generate_response_node_tr]
  · intro h
    have hg : greeting_node c.greetingLLM s =
        (match c.greetingLLM with
         | .ok text =>
             { s with is_greeting := some true, teacher_response := some text }
         | .error _ =>
             { s with is_greeting := some true, teacher_response := some (fallbackGreeting s.lesson_title) }) := by
      simp only [greeting_node]
      rw [if_neg (not_not_intro (by simpa [isGreetingInput] using h))]
    have hig : (greeting_node c.greetingLLM s).is_greeting = some true := by
      rw [hg]; cases c.greetingLLM <;> rfl
    unfold runGraph
    rw [if_pos (by simp [route_after_greeting, hig])]
    rw [hg]
    cases c.greetingLLM <;> rfl

/-- Witness for C8 on a concrete teaching turn. -/
theorem C8_witness :
    (runGraph okCollab baseState).teacher_response =
      some (responseTextOf okCollab.responseLLM) :=
  (C8_teacher_response okCollab baseState).1 (by decide)

/-- Counterexample to C8 as stated: a non-greeting run whose LLM succeeds
with the empty output ends with `teacher_response = some ""` — set, but
empty, so the final `teacher_response` is not always non-empty. -/
theorem C8_counterexample :
    ¬ isGreetingInput { baseState with user_input := pystr "hello" } ∧
    (runGraph { okCollab with responseLLM := .ok [] }
        { baseState with user_input := pystr "hello" }).teacher_response =
      some [] := by
  constructor
  · simp only [isGreetingInput]
    decide
  · decide

/-! ## Claim C9 -/

/-- Amended claim C9: a raised collaborator exception in Retrieve Content
or Update Progress is not propagated to the caller — the owning node
catches it, records it in the `error` field of the state (Retrieve Content
additionally substitutes empty retrieved content; Update Progress changes
nothing else) and the run continues: after a retrieval failure the trace
still proceeds through Generate Response. -/
theorem C9_collaborator_failure_swallowed (e : PyStr) (s : TeachingState)
    (c : Collaborators) :
    retrieve_content_node (.error e) s =
      { s with error := some e, retrieved_content := some [] } ∧
    update_progress_node (.error e) s = { s with error := some e } ∧
    (¬ isGreetingInput s →
      ∃ rest, (runTrace c s).map Prod.fst =
        GNode.greeting :: GNode.retrieve_content ::
          GNode.generate_response :: rest) := by
  refine ⟨rfl, rfl, fun h => ?_⟩
  exact (C4_greeting_routing c s).2 h |>.2

/-- The baseline collaborators with the retrieval backing store raising
its uninitialized-store exception. -/
def storeDownCollab : Collaborators :=
  { okCollab with retrieval := .error (pystr "Vector store not initialized") }

/-- Witness for C9: the uninitialized-vector-store exception is recorded
in `error`, the turn still runs Generate Response and ends with a
teacher response. -/
theorem C9_witness :
    retrieve_content_node (.error (pystr "Vector store not initialized"))
        baseState =
      { baseState with
        error := some (pystr "Vector store not initialized")
        retrieved_content := some [] } ∧
    update_progress_node (.error (pystr "Vector store not initialized"))
        baseState =
      { baseState with error := some (pystr "Vector store not initialized") } ∧
    (∃ rest, (runTrace storeDownCollab baseState).map Prod.fst =
      GNode.greeting :: GNode.retrieve_content ::
        GNode.generate_response :: rest) :=
  ⟨(C9_collaborator_failure_swallowed (pystr "Vector store not initialized")
      baseState storeDownCollab).1,
   (C9_collaborator_failure_swallowed (pystr "Vector store not initialized")
      baseState storeDownCollab).2.1,
   (C9_collaborator_failure_swallowed (pystr "Vector store not initialized")
      baseState storeDownCollab).2.2 (by simp only [isGreetingInput]; decide)⟩

/-- Counterexample to C9 as stated: with the retrieval collaborator
raising "Vector store not initialized", the run does not fail hard — it
completes the whole teaching path, merely annotating `error` on the state
while still producing the LLM teacher response. -/
theorem C9_counterexample :
    (runTrace storeDownCollab baseState).map Prod.fst =
      [GNode.greeting, GNode.retrieve_content, GNode.generate_response] ∧
    (runGraph storeDownCollab baseState).error =
      some (pystr "Vector store not initialized") ∧
    (runGraph storeDownCollab baseState).teacher_response =
      some (pystr "Here is an explanation.") := by
  decide

/-! ## Claim C10 -/

/-- Claim C10: `update_progress` sets `current_lesson_id` to the lesson
itself whenever the quiz was failed or the lesson was already completed —
so re-taking an earlier completed lesson moves `current_lesson_id`
backwards to it — and advances to `lesson_id + 1` exactly when the quiz
was passed and the lesson was not already completed. -/
theorem C10_update_progress_store (user : UserProgress) (lesson_id : Int)
    (score : ℚ) :
    (lesson_id ∈ user.completed_lessons →
      (update_progress user lesson_id score true).current_lesson_id =
        lesson_id) ∧
    ((update_progress user lesson_id score false).current_lesson_id =
      lesson_id) ∧
    (lesson_id ∉ user.completed_lessons →
      (update_progress user lesson_id score true).current_lesson_id =
        lesson_id + 1) ∧
    (∀ passed : Bool,
      (update_progress user lesson_id score passed).current_lesson_id =
          lesson_id + 1 →
        passed = true ∧ lesson_id ∉ user.completed_lessons) := by
  refine ⟨?_, ?_, ?_, ?_⟩
  · intro hmem
    simp [update_progress, hmem]
  · simp [update_progress]
  · intro hmem
    simp [update_progress, hmem]
  · intro passed hcur
    by_cases hp : passed = true
    · subst hp
      by_cases hmem : lesson_id ∈ user.completed_lessons
      · exfalso
        simp [update_progress, hmem] at hcur
      · exact ⟨rfl, hmem⟩
    · simp at hp
      subst hp
      exfalso
      simp [update_progress] at hcur

/-- Witness for C10: re-taking completed lesson 1 with a pass moves the
current lesson id back from 3 to 1. -/
theorem C10_witness :
    (update_progress ⟨pystr "user_1", 3, [1, 2], []⟩ 1 1 true).current_lesson_id
      = 1 :=
  (C10_update_progress_store ⟨pystr "user_1", 3, [1, 2], []⟩ 1 1).1 (by decide)

end TeachingAI
